import Mathlib

/-!
Verification development for the generate-then-render presentation pipeline
(`ppt_gen_2.py`).  The Python program is shallowly embedded: pure string
manipulation is translated to Lean functions on `String` / `List Char`
(Python indexes strings by code point, which matches `List Char` indexing);
the external AI backend, the HTTP image fetcher, the image embedder and the
per-format document extractors are modelled as explicit oracle parameters;
`datetime.now()` is threaded as an explicit parameter; raising code paths
are modelled with `Option`.  Machine integers do not occur (all arithmetic
is on string indices, which Python handles as unbounded ints).
-/

/-! ### Data model (`SlideContent`, `PresentationData`)

`SlideContent.__post_init__` replaces `None` image/reference lists by `[]`;
in the embedding the list fields are total, so the normalisation is implicit.
`datetime` is represented by the only observation this program makes of it:
its `strftime("%B %d, %Y")` rendering. -/

structure PyDatetime where
  formattedBdY : String
deriving DecidableEq

structure SlideContent where
  title : String
  bullet_points : List String
  additional_info : String
  image_urls : List String
  reference_urls : List String
deriving DecidableEq

structure PresentationData where
  slides : List SlideContent
  topic : String
  generated_at : PyDatetime
deriving DecidableEq

/-! ### Python values

`PyVal` models the values `json.loads` can produce (the decoded response).
A JSON object is a key/value list; `pyLookup` returns the first binding,
matching Python dict lookup (a real dict has unique keys). -/

inductive PyVal where
  | vstr : String → PyVal
  | vint : Int → PyVal
  | vbool : Bool → PyVal
  | vnone : PyVal
  | vlist : List PyVal → PyVal
  | vdict : List (String × PyVal) → PyVal

/-- Python truthiness (`if not result:`) on a decoded value. -/
def pyFalsy : PyVal → Bool
  | PyVal.vstr s => s.isEmpty
  | PyVal.vint n => n == 0
  | PyVal.vbool b => !b
  | PyVal.vnone => true
  | PyVal.vlist xs => xs.isEmpty
  | PyVal.vdict fs => fs.isEmpty

def pyLookup : List (String × PyVal) → String → Option PyVal
  | [], _ => none
  | (k, v) :: rest, key => if k = key then some v else pyLookup rest key

/-- Python `dict.get(key, default)`. -/
def dictGet (fs : List (String × PyVal)) (key : String) (dflt : PyVal) : PyVal :=
  (pyLookup fs key).getD dflt

/-! ### String utilities

Python `str.find` / `str.rfind` / slicing, modelled on `List Char`
(code-point indexing, as in Python). -/

/-- Index of the first occurrence of `pat` in `hay` (Python `str.find`,
with `none` for `-1`). -/
def firstIdxOfSub (hay pat : List Char) : Option Nat :=
  match hay with
  | [] => if pat = [] then some 0 else none
  | _ :: t => if pat.isPrefixOf hay then some 0 else (firstIdxOfSub t pat).map (· + 1)

/-- Index of the last occurrence of `pat` in `hay` (Python `str.rfind`,
with `none` for `-1`). -/
def lastIdxOfSub (hay pat : List Char) : Option Nat :=
  match hay with
  | [] => if pat = [] then some 0 else none
  | _ :: t =>
    match lastIdxOfSub t pat with
    | some i => some (i + 1)
    | none => if pat.isPrefixOf hay then some 0 else none

/-- Python `str.strip()`: drop whitespace from both ends. -/
def pyStrip (l : List Char) : List Char :=
  ((l.dropWhile Char.isWhitespace).reverse.dropWhile Char.isWhitespace).reverse

def fenceJson : List Char := "```json".toList

def fence3 : List Char := "```".toList

/-! ### `AIContentGenerator.generate_with_gemini` (lines 191-217)

The backend call (`model.generate_content`) either raises or returns text;
`json.loads` is an oracle `decode : String → Option PyVal` (`none` models a
raised `JSONDecodeError`; on success the payload starts with `{`, so the
decoded value is a dict). -/

inductive BackendResult where
  | raises : BackendResult
  | text : String → BackendResult

/-- Fence stripping (lines 199-203): if `"```json"` occurs, take the text
between `find("```json") + 7` and `rfind("```")` (exclusive) and strip it,
provided that span is non-empty; otherwise leave the text unchanged. -/
def stripFences (t : List Char) : List Char :=
  if (firstIdxOfSub t fenceJson).isSome then
    match firstIdxOfSub t fenceJson, lastIdxOfSub t fence3 with
    | some i, some j =>
        if i + 7 < j then pyStrip ((t.drop (i + 7)).take (j - (i + 7))) else t
    | _, _ => t
  else t

/-- Brace extraction (lines 205-213): `json_start = find('{')`,
`json_end = rfind('}') + 1`; succeed with the inclusive substring when
`json_start >= 0 and json_end > json_start`, otherwise report failure. -/
def braceExtract (t : List Char) : Option (List Char) :=
  match firstIdxOfSub t ['{'] with
  | none => none
  | some i =>
    let j1 : Nat := match lastIdxOfSub t ['}'] with | none => 0 | some k => k + 1
    if i < j1 then some ((t.drop i).take (j1 - i)) else none

/-- Candidate JSON payload of a raw backend response: strip, de-fence,
then brace-extract (lines 197-209). -/
def extract_json_candidate (raw : String) : Option String :=
  (braceExtract (stripFences (pyStrip raw.toList))).map (fun l => String.mk l)

/-- Lines 191-217.  `none` models every path that yields `return None`
(the call raised, no brace pair was found, or `json.loads` raised). -/
def generate_with_gemini (decode : String → Option PyVal) : BackendResult → Option PyVal
  | BackendResult.raises => none
  | BackendResult.text s =>
    match extract_json_candidate s with
    | some c => decode c
    | none => none

/-! ### `AIContentGenerator.create_presentation_prompt` (lines 142-189) -/

/-- Literal `base_prompt` string of lines 145-181 (braces written as
escapes). -/
def base_prompt : String :=
  "You are an intelligent assistant that helps generate professional PDF presentations with rich content.\n"
  ++ "\n"
  ++ "Your task is to generate comprehensive presentation-ready slide content with additional information, relevant image suggestions, and reference URLs.\n"
  ++ "\n"
  ++ "Instructions:\n"
  ++ "1. Create 6-10 slides including title, introduction, content slides, and conclusion\n"
  ++ "2. Each slide should have a clear title and 3-6 concise bullet points\n"
  ++ "3. Include additional_info with detailed explanations, statistics, or examples\n"
  ++ "4. Suggest relevant image_urls (use placeholder URLs like https://via.placeholder.com/400x300/0066cc/ffffff?text=Topic+Image)\n"
  ++ "5. Provide reference_urls with credible sources and further reading links\n"
  ++ "6. Keep content professional, informative, and comprehensive\n"
  ++ "\n"
  ++ "Output Format - Respond ONLY with valid JSON in this exact structure:\n"
  ++ "```json\n"
  ++ "\x7b\n"
  ++ "  \"slides\": [\n"
  ++ "    \x7b\n"
  ++ "      \"title\": \"Slide Title\",\n"
  ++ "      \"bullet_points\": [\n"
  ++ "        \"First key point\",\n"
  ++ "        \"Second important point\", \n"
  ++ "        \"Third valuable insight\"\n"
  ++ "      ],\n"
  ++ "      \"additional_info\": \"Detailed explanation, statistics, examples, or context that supports the main points. This should be informative and add value to the presentation.\",\n"
  ++ "      \"image_urls\": [\n"
  ++ "        \"https://via.placeholder.com/400x300/0066cc/ffffff?text=Relevant+Image1\",\n"
  ++ "        \"https://via.placeholder.com/400x300/28a745/ffffff?text=Chart+or+Graph\"\n"
  ++ "      ],\n"
  ++ "      \"reference_urls\": [\n"
  ++ "        \"https://example.com/relevant-article\",\n"
  ++ "        \"https://research.example.com/study\"\n"
  ++ "      ]\n"
  ++ "    \x7d\n"
  ++ "  ]\n"
  ++ "\x7d\n"
  ++ "```\n"

/-- Lines 142-189.  `document_content[:3000]` is the first 3000 code points;
the truncation guard is `len(document_content) > 3000`, and the
`content_preview` binding of line 184 is inlined. -/
def create_presentation_prompt (topic : String) (document_content : String := "") : String :=
  if document_content ≠ "" then
    base_prompt ++ "\n\nDocument Content to Analyze:\n"
      ++ (if 3000 < document_content.length
          then String.mk (document_content.toList.take 3000) ++ "..."
          else document_content)
      ++ "\n\nTopic: " ++ topic
  else
    base_prompt ++ "\n\nTopic to Present: " ++ topic
      ++ "\n\nGenerate comprehensive content based on your knowledge with relevant examples, statistics, and references."

/-! ### `AIContentGenerator._generate_fallback_content` (lines 253-305) -/

def _generate_fallback_content (topic : String) (now : PyDatetime) : PresentationData :=
  { slides :=
      [ { title := topic
        , bullet_points := ["AI-Generated Professional Presentation", "Comprehensive Analysis", "Data-Driven Insights"]
        , additional_info := "This presentation has been automatically generated using advanced AI technology to provide comprehensive coverage of the topic with relevant insights and supporting information."
        , image_urls := ["https://via.placeholder.com/400x300/1f497d/ffffff?text=Title+Slide"]
        , reference_urls := ["https://example.com/ai-presentations"] }
      , { title := "Introduction & Overview"
        , bullet_points :=
            [ "Comprehensive overview of " ++ topic
            , "Key concepts and fundamental principles"
            , "Current relevance and importance"
            , "Presentation structure and objectives" ]
        , additional_info := "This section provides the foundational understanding necessary to grasp the core concepts. We\x27ll explore the historical context, current applications, and future implications of the topic."
        , image_urls := ["https://via.placeholder.com/400x300/28a745/ffffff?text=Overview"]
        , reference_urls := ["https://example.com/introduction", "https://example.com/overview"] }
      , { title := "Key Analysis & Findings"
        , bullet_points :=
            [ "Primary research findings and data"
            , "Statistical analysis and trends"
            , "Critical insights and interpretations"
            , "Practical applications and use cases" ]
        , additional_info := "Our analysis reveals significant patterns and trends that have important implications for understanding this topic. These findings are based on current research and real-world applications."
        , image_urls := ["https://via.placeholder.com/400x300/dc3545/ffffff?text=Data+Analysis"]
        , reference_urls := ["https://example.com/research", "https://example.com/data-analysis"] }
      , { title := "Conclusions & Next Steps"
        , bullet_points :=
            [ "Summary of critical findings"
            , "Key takeaways and insights"
            , "Future considerations and opportunities"
            , "Recommended actions and next steps" ]
        , additional_info := "Based on our comprehensive analysis, these conclusions provide a clear path forward. The recommendations are actionable and based on evidence-driven insights."
        , image_urls := ["https://via.placeholder.com/400x300/6f42c1/ffffff?text=Conclusions"]
        , reference_urls := ["https://example.com/conclusions", "https://example.com/future-research"] }
      ]
  , topic := topic
  , generated_at := now }

/-! ### `AIContentGenerator.generate_presentation_content` (lines 219-251)

The slide-mapping loop runs inside `try`; any exception it raises
(`TypeError` from iterating a non-iterable `slides` value,
`AttributeError` from `.get` on a non-dict element) is caught and answered
with the fallback, which `Option` models as `none`.  String-typed slide
fields whose JSON value has a different type are stored unchecked by the
Python dataclass; the embedding normalises them to the field's `.get`
default (no claim observes such values).  A JSON `null` in a list field is
turned into `[]` by `__post_init__`, which the same normalisation covers. -/

def getStrD (fs : List (String × PyVal)) (key dflt : String) : String :=
  match pyLookup fs key with
  | some (PyVal.vstr s) => s
  | _ => dflt

def getStrListD (fs : List (String × PyVal)) (key : String) : List String :=
  match pyLookup fs key with
  | some (PyVal.vlist xs) =>
      xs.map (fun v => match v with | PyVal.vstr s => s | _ => "")
  | _ => []

/-- One iteration of the loop of lines 234-241: the element must be a dict
(otherwise `.get` raises `AttributeError`, caught by line 249). -/
def slideFromJson : PyVal → Option SlideContent
  | PyVal.vdict fs =>
      some
        { title := getStrD fs "title" ""
        , bullet_points := getStrListD fs "bullet_points"
        , additional_info := getStrD fs "additional_info" ""
        , image_urls := getStrListD fs "image_urls"
        , reference_urls := getStrListD fs "reference_urls" }
  | _ => none

/-- Iterating `result.get('slides', [])`: a list iterates its elements, a
string its characters (each a string, so `.get` raises unless the string is
empty), a dict its keys (strings, likewise), and other values raise
`TypeError`. -/
def iterSlides : PyVal → Option (List SlideContent)
  | PyVal.vlist xs => xs.mapM slideFromJson
  | PyVal.vstr s => if s.isEmpty then some [] else none
  | PyVal.vdict fs => match fs with | [] => some [] | _ => none
  | _ => none

/-- Lines 219-251.  The Python signature is `Optional[PresentationData]`,
but every path returns a presentation, so the embedding is total; `outcome`
is the backend's response to the prompt built on line 226. -/
def generate_presentation_content (decode : String → Option PyVal)
    (api_key topic : String) (document_content : String)
    (outcome : BackendResult) (now : PyDatetime) : PresentationData :=
  if api_key = "" then _generate_fallback_content topic now
  else
    let _prompt := create_presentation_prompt topic document_content
    match generate_with_gemini decode outcome with
    | none => _generate_fallback_content topic now
    | some result =>
      if pyFalsy result then _generate_fallback_content topic now
      else
        match result with
        | PyVal.vdict fs =>
          match iterSlides (dictGet fs "slides" (PyVal.vlist [])) with
          | some slides => { slides := slides, topic := topic, generated_at := now }
          | none => _generate_fallback_content topic now
        | _ => _generate_fallback_content topic now

/-! ### `DocumentProcessor.process_uploaded_file` (lines 112-128)

The four per-format extractors delegate to external libraries and catch
their own exceptions, so each is an oracle `UploadedFile → String`.  The
result pairs the extracted text with the unsupported-format signal
(`st.error` of line 127); signals raised inside the extractor oracles are
not modelled. -/

structure UploadedFile where
  type : String
deriving DecidableEq

def process_uploaded_file
    (extractPdf extractDocx extractTxt extractCsv : UploadedFile → String) :
    Option UploadedFile → String × Option String
  | none => ("", none)
  | some f =>
    if f.type = "application/pdf" then (extractPdf f, none)
    else if f.type = "application/vnd.openxmlformats-officedocument.wordprocessingml.document" then
      (extractDocx f, none)
    else if f.type = "text/plain" then (extractTxt f, none)
    else if f.type = "text/csv" then (extractCsv f, none)
    else ("", some ("Unsupported file type: " ++ f.type))

/-! ### `EnhancedPDFGenerator` (lines 311-511)

The renderer is embedded at the flowable level: `doc.build(story)` and the
`BytesIO` buffer belong to the external layout library, so the model's
output is the `story` list handed to `build`, together with the temporary
image files created (`download_image`, lines 370-383) and deleted
(`os.unlink`, lines 450 and 497) along the way.  `fetch` is the network
oracle (`requests.get` + `tempfile`: a successful download yields the
temporary file's path), and `embedOk` decides whether the `Image(...)`
constructor succeeds on a downloaded file.  Spacer and image dimensions are
recorded in tenths of an inch (`1.5*inch` is 15, `0.1*inch` is 1, the
`3*inch × 2*inch` title image is 30 × 20, the `2.5*inch × 1.8*inch` content
image is 25 × 18). -/

inductive Flowable where
  | pageBreak : Flowable
  | spacer : Nat → Nat → Flowable
  | paragraph : String → String → Flowable
  | image : String → Nat → Nat → Flowable
deriving DecidableEq

/-- Output of a rendering step: the flowables appended to the story, the
temporary image files created, and the temporary image files deleted. -/
structure Rout where
  story : List Flowable
  created : List String
  deleted : List String
deriving DecidableEq

def Rout.app (a b : Rout) : Rout :=
  { story := a.story ++ b.story
  , created := a.created ++ b.created
  , deleted := a.deleted ++ b.deleted }

instance : Append Rout := ⟨Rout.app⟩

def flows (l : List Flowable) : Rout := { story := l, created := [], deleted := [] }

/-- Lines 370-383: the whole body is one `try`, so the result is just the
oracle's answer (`none` on any network or filesystem failure). -/
def download_image (fetch : String → Option String) (url : String) : Option String :=
  fetch url

/-- Lines 444-452: the title slide downloads `image_urls[0]` only; on a
successful embed the temp file is unlinked, and a failing `Image(...)`
constructor is swallowed by `except: pass` with no unlink. -/
def title_image_block (fetch : String → Option String) (embedOk : String → Bool)
    (urls : List String) : Rout :=
  match urls with
  | [] => flows []
  | url :: _ =>
    match download_image fetch url with
    | none => flows []
    | some path =>
      if embedOk path then
        { story := [Flowable.image path 30 20], created := [path], deleted := [path] }
      else
        { story := [], created := [path], deleted := [] }

/-- One iteration of the loop of lines 490-499 (append image, append
spacer, unlink on success; swallow the failure with no unlink). -/
def content_image_block (fetch : String → Option String) (embedOk : String → Bool)
    (url : String) : Rout :=
  match download_image fetch url with
  | none => flows []
  | some path =>
    if embedOk path then
      { story := [Flowable.image path 25 18, Flowable.spacer 1 1]
      , created := [path], deleted := [path] }
    else
      { story := [], created := [path], deleted := [] }

/-- Loop of line 490: `for img_url in slide_content.image_urls[:2]`. -/
def content_image_blocks (fetch : String → Option String) (embedOk : String → Bool)
    (urls : List String) : Rout :=
  (urls.take 2).foldr (fun u acc => content_image_block fetch embedOk u ++ acc) (flows [])

/-- Lines 417-460.  The heading paragraph renders
`presentation_data.topic`, not `slide_content.title`. -/
def _create_enhanced_title_slide (fetch : String → Option String) (embedOk : String → Bool)
    (slide_content : SlideContent) (presentation_data : PresentationData) : Rout :=
  flows [Flowable.spacer 1 15]
  ++ flows [Flowable.paragraph presentation_data.topic "TitleSlide"]
  ++ flows [Flowable.spacer 1 5]
  ++ flows (if slide_content.bullet_points.isEmpty then []
            else slide_content.bullet_points.map
              (fun point => Flowable.paragraph ("• " ++ point) "BulletPoint"))
  ++ flows [Flowable.spacer 1 3]
  ++ flows (if slide_content.additional_info.isEmpty then []
            else [Flowable.paragraph slide_content.additional_info "AdditionalInfo"])
  ++ flows [Flowable.spacer 1 5]
  ++ (if slide_content.image_urls.isEmpty then flows []
      else title_image_block fetch embedOk slide_content.image_urls)
  ++ flows [Flowable.spacer 1 3]
  ++ flows [Flowable.paragraph ("Generated: " ++ presentation_data.generated_at.formattedBdY) "URLStyle"]

/-- Lines 462-511 (`slide_number` is accepted but unused, as in the
source). -/
def _create_enhanced_content_slide (fetch : String → Option String) (embedOk : String → Bool)
    (slide_content : SlideContent) (slide_number : Nat) : Rout :=
  flows [Flowable.spacer 1 3]
  ++ flows [Flowable.paragraph slide_content.title "SlideTitle"]
  ++ flows [Flowable.spacer 1 2]
  ++ flows (slide_content.bullet_points.map
      (fun bullet_point => Flowable.paragraph ("• " ++ bullet_point) "BulletPoint"))
  ++ flows [Flowable.spacer 1 2]
  ++ flows (if slide_content.additional_info.isEmpty then []
            else [Flowable.paragraph ("<b>Additional Information:</b><br/>" ++ slide_content.additional_info) "AdditionalInfo"
                 , Flowable.spacer 1 2])
  ++ (if slide_content.image_urls.isEmpty then flows []
      else content_image_blocks fetch embedOk slide_content.image_urls)
  ++ flows (if slide_content.reference_urls.isEmpty then []
            else [Flowable.spacer 1 1
                 , Flowable.paragraph "<b>References & Further Reading:</b>" "BulletPoint"]
                 ++ slide_content.reference_urls.map
                     (fun url => Flowable.paragraph ("• " ++ url) "URLStyle"))

/-- Page-break placement of lines 402-409: every block is followed by a
`PageBreak` except the last, i.e. a break between consecutive blocks. -/
def joinPB : List Rout → Rout
  | [] => flows []
  | [b] => b
  | b :: bs => b ++ flows [Flowable.pageBreak] ++ joinPB bs

/-- Lines 385-415: slide `0` becomes the title slide, every later slide a
content slide, with a page break between consecutive slides. -/
def create_presentation (fetch : String → Option String) (embedOk : String → Bool)
    (presentation_data : PresentationData) : Rout :=
  joinPB (presentation_data.slides.enum.map (fun x =>
    if x.1 = 0 then _create_enhanced_title_slide fetch embedOk x.2 presentation_data
    else _create_enhanced_content_slide fetch embedOk x.2 x.1))

def isPageBreak : Flowable → Bool
  | Flowable.pageBreak => true
  | _ => false

def isImageFlow : Flowable → Bool
  | Flowable.image _ _ _ => true
  | _ => false

def countPB (l : List Flowable) : Nat := l.countP isPageBreak

def countImages (l : List Flowable) : Nat := l.countP isImageFlow

/-- Texts of the `Paragraph` flowables of a story, in order. -/
def paragraphTexts (l : List Flowable) : List String :=
  l.filterMap (fun f => match f with | Flowable.paragraph t _ => some t | _ => none)

/-- Presentation with every slide's image URLs removed (used to state that
download failures only ever suppress images). -/
def stripImages (p : PresentationData) : PresentationData :=
  { p with slides := p.slides.map (fun s => { s with image_urls := [] }) }

/-! ### Concrete values used by witnesses and counterexamples -/

def now0 : PyDatetime := { formattedBdY := "October 12, 2025" }

def decode0 : String → Option PyVal := fun s =>
  if s = "\x7b\"foo\": 1\x7d" then some (PyVal.vdict [("foo", PyVal.vint 1)]) else none

def fetch0 : String → Option String := fun _ => none

def fetch1 : String → Option String := fun u =>
  if u = "http://img.example/a.jpg" then some "/tmp/t1.jpg" else none

def embedAll : String → Bool := fun _ => true

def embedNone : String → Bool := fun _ => false

def slideA : SlideContent :=
  { title := "A", bullet_points := ["pt"], additional_info := "info"
  , image_urls := [], reference_urls := ["http://r"] }

def slideB : SlideContent :=
  { title := "B", bullet_points := [], additional_info := ""
  , image_urls := [], reference_urls := [] }

def presAB : PresentationData := { slides := [slideA, slideB], topic := "TopicA", generated_at := now0 }

def presX : PresentationData :=
  { slides := [{ title := "X", bullet_points := [], additional_info := ""
               , image_urls := [], reference_urls := [] }]
  , topic := "Y", generated_at := now0 }

def bigDoc : String := String.mk (List.replicate 3001 'a')

def filePng : UploadedFile := { type := "image/png" }

def slideC : SlideContent :=
  { title := "C", bullet_points := ["b"], additional_info := ""
  , image_urls := ["http://img.example/a.jpg", "u2", "u3"], reference_urls := [] }

def extract0 : UploadedFile → String := fun _ => ""

/-! ## Theorems -/

/-! ### Helper lemmas (shared; not tied to a single claim) -/

theorem braceExtract_spec (t : List Char) :
    braceExtract t =
      (match firstIdxOfSub t ['{'], lastIdxOfSub t ['}'] with
       | some i, some j => if i ≤ j then some ((t.drop i).take (j + 1 - i)) else none
       | some _, none => none
       | none, _ => none) := by
  unfold braceExtract
  cases h1 : firstIdxOfSub t ['{'] with
  | none => rfl
  | some i =>
    cases h2 : lastIdxOfSub t ['}'] with
    | none => simp
    | some k =>
      simp only [Nat.lt_succ_iff]

theorem fallback_slides_len (topic : String) (now : PyDatetime) :
    (_generate_fallback_content topic now).slides.length = 4 := rfl

/-! ### Claim theorems for the AI-content side -/

set_option maxRecDepth 8192 in
/-- Claim C2: for every topic, `_generate_fallback_content` returns exactly
4 slides titled (in order) the topic, "Introduction & Overview",
"Key Analysis & Findings" and "Conclusions & Next Steps"; every slide has
non-empty bullet points, non-empty descriptive text, exactly one image URL
and at least one reference URL; and the slides depend only on the topic
(the timestamp affects only `generated_at`). -/
theorem fallback_four_fixed_slides (topic : String) (now now' : PyDatetime) :
    ((_generate_fallback_content topic now).slides.map (fun s => s.title)
        = [topic, "Introduction & Overview", "Key Analysis & Findings", "Conclusions & Next Steps"])
    ∧ (_generate_fallback_content topic now).slides.length = 4
    ∧ ((_generate_fallback_content topic now).slides.all (fun s =>
          !s.bullet_points.isEmpty && !s.additional_info.isEmpty
            && (s.image_urls.length == 1) && !s.reference_urls.isEmpty) = true)
    ∧ (_generate_fallback_content topic now).slides = (_generate_fallback_content topic now').slides
    ∧ (_generate_fallback_content topic now).topic = topic
    ∧ (_generate_fallback_content topic now).generated_at = now :=
  ⟨rfl, rfl, rfl, rfl, rfl, rfl⟩

/-- Claim C9: an empty API credential makes
`generate_presentation_content` return the fixed 4-slide fallback at once;
the result does not depend on the decode oracle, the document text or the
backend outcome, so no backend call is observable. -/
theorem empty_key_returns_fallback (decode : String → Option PyVal) (topic doc : String)
    (outcome : BackendResult) (now : PyDatetime) :
    generate_presentation_content decode "" topic doc outcome now
        = _generate_fallback_content topic now
    ∧ (_generate_fallback_content topic now).slides.length = 4 := by
  constructor
  · simp [generate_presentation_content]
  · rfl

/-- Claim C3: on a returned response text, the payload handed to the
decoder is exactly the substring from the first `\x7b` to the last `\x7d`
(inclusive) of the fence-stripped, whitespace-trimmed text, and the
operation fails (no decoded structure) when no such pair exists. -/
theorem extraction_first_to_last_brace (decode : String → Option PyVal) (raw : String) :
    generate_with_gemini decode (BackendResult.text raw)
        = (extract_json_candidate raw).bind decode
    ∧ extract_json_candidate raw =
        (match firstIdxOfSub (stripFences (pyStrip raw.toList)) ['{'],
               lastIdxOfSub (stripFences (pyStrip raw.toList)) ['}'] with
         | some i, some j =>
             if i ≤ j then
               some (String.mk (((stripFences (pyStrip raw.toList)).drop i).take (j + 1 - i)))
             else none
         | some _, none => none
         | none, _ => none) := by
  constructor
  · cases h : extract_json_candidate raw <;> simp [generate_with_gemini, h]
  · unfold extract_json_candidate
    rw [braceExtract_spec]
    cases h1 : firstIdxOfSub (stripFences (pyStrip raw.toList)) ['{'] with
    | none => rfl
    | some i =>
      cases h2 : lastIdxOfSub (stripFences (pyStrip raw.toList)) ['}'] with
      | none => rfl
      | some k =>
        by_cases hik : i ≤ k
        · simp [hik]
        · simp [hik]

/-- Claim C10: when the trimmed response contains the opener `"```json"`
but the last `"```"` does not lie strictly beyond the position just past
the opener, fence stripping leaves the text unchanged and brace extraction
runs on the whole trimmed response. -/
theorem unclosed_fence_left_unchanged (raw : String) (i j : Nat)
    (h1 : firstIdxOfSub (pyStrip raw.toList) fenceJson = some i)
    (h2 : lastIdxOfSub (pyStrip raw.toList) fence3 = some j)
    (h3 : j ≤ i + 7) :
    stripFences (pyStrip raw.toList) = pyStrip raw.toList
    ∧ extract_json_candidate raw
        = (braceExtract (pyStrip raw.toList)).map (fun l => String.mk l) := by
  have hs : stripFences (pyStrip raw.toList) = pyStrip raw.toList := by
    unfold stripFences
    simp only [h1, h2, Option.isSome_some, if_true]
    rw [if_neg (by omega)]
  refine ⟨hs, ?_⟩
  unfold extract_json_candidate
  rw [hs]

/-- Witness for C10 at the concrete response `"```json"` (opener present,
no closer beyond it). -/
theorem unclosed_fence_left_unchanged_witness :
    stripFences (pyStrip "```json".toList) = pyStrip "```json".toList
    ∧ extract_json_candidate "```json"
        = (braceExtract (pyStrip "```json".toList)).map (fun l => String.mk l) :=
  unclosed_fence_left_unchanged "```json" 0 0 (by decide) (by decide) (by decide)

/-- Claim C4: the prompt builder truncates a document longer than 3000
characters to exactly its first 3000 characters followed by the ellipsis
marker, passes a non-empty document of at most 3000 characters through
unchanged, and uses the general-knowledge framing with the topic alone when
the document is empty.  (Determinism is inherent: the embedding is a pure
function of `(topic, document_content)`.) -/
theorem prompt_builder_truncation (topic document_content : String) :
    (3000 < document_content.length →
        create_presentation_prompt topic document_content
          = base_prompt ++ "\n\nDocument Content to Analyze:\n"
              ++ (String.mk (document_content.toList.take 3000) ++ "...")
              ++ "\n\nTopic: " ++ topic)
    ∧ (document_content ≠ "" → document_content.length ≤ 3000 →
        create_presentation_prompt topic document_content
          = base_prompt ++ "\n\nDocument Content to Analyze:\n" ++ document_content
              ++ "\n\nTopic: " ++ topic)
    ∧ (create_presentation_prompt topic ""
        = base_prompt ++ "\n\nTopic to Present: " ++ topic
            ++ "\n\nGenerate comprehensive content based on your knowledge with relevant examples, statistics, and references.") := by
  refine ⟨?_, ?_, ?_⟩
  · intro h
    have hne : document_content ≠ "" := by
      intro he
      rw [he] at h
      simp at h
    unfold create_presentation_prompt
    rw [if_pos hne, if_pos h]
  · intro hne hle
    unfold create_presentation_prompt
    rw [if_pos hne, if_neg (by omega)]
  · rfl

/-- Witness for C4: a 3001-character document is truncated with the
marker, and a 2-character document passes through unchanged. -/
theorem prompt_builder_truncation_witness :
    (create_presentation_prompt "T" bigDoc
      = base_prompt ++ "\n\nDocument Content to Analyze:\n"
          ++ (String.mk (bigDoc.toList.take 3000) ++ "...") ++ "\n\nTopic: " ++ "T")
    ∧ (create_presentation_prompt "T" "ab"
      = base_prompt ++ "\n\nDocument Content to Analyze:\n" ++ "ab" ++ "\n\nTopic: " ++ "T") :=
  ⟨(prompt_builder_truncation "T" bigDoc).1 (by
      show 3000 < bigDoc.length
      have : bigDoc.length = 3001 := by
        show (String.mk (List.replicate 3001 'a')).length = 3001
        rw [String.length_mk, List.length_replicate]
      omega)
  , (prompt_builder_truncation "T" "ab").2.1 (by decide) (by decide)⟩

/-- Claim C1 (amended): with a non-empty API key, every failing backend
outcome — the call raises, the response has no brace pair, the payload
fails to decode, or the decoded object is empty — makes
`generate_presentation_content` return the fallback (which has at least
one slide) without raising; but a decoded non-empty object with no
`slides` key instead yields a presentation whose slide list is empty, not
the fallback. -/
theorem generation_failure_fallback_paths (decode : String → Option PyVal)
    (api_key topic doc : String) (now : PyDatetime) (hkey : api_key ≠ "") :
    (generate_presentation_content decode api_key topic doc BackendResult.raises now
        = _generate_fallback_content topic now)
    ∧ (∀ s : String, extract_json_candidate s = none →
        generate_presentation_content decode api_key topic doc (BackendResult.text s) now
          = _generate_fallback_content topic now)
    ∧ (∀ s c, extract_json_candidate s = some c → decode c = none →
        generate_presentation_content decode api_key topic doc (BackendResult.text s) now
          = _generate_fallback_content topic now)
    ∧ (∀ s c, extract_json_candidate s = some c → decode c = some (PyVal.vdict []) →
        generate_presentation_content decode api_key topic doc (BackendResult.text s) now
          = _generate_fallback_content topic now)
    ∧ (∀ s c fs, extract_json_candidate s = some c → decode c = some (PyVal.vdict fs) →
        fs ≠ [] → pyLookup fs "slides" = none →
        (generate_presentation_content decode api_key topic doc (BackendResult.text s) now).slides = []
        ∧ generate_presentation_content decode api_key topic doc (BackendResult.text s) now
            ≠ _generate_fallback_content topic now)
    ∧ 1 ≤ (_generate_fallback_content topic now).slides.length := by
  refine ⟨?_, ?_, ?_, ?_, ?_, ?_⟩
  · simp [generate_presentation_content, generate_with_gemini, hkey]
  · intro s hs
    simp [generate_presentation_content, generate_with_gemini, hkey, hs]
  · intro s c hc hd
    simp [generate_presentation_content, generate_with_gemini, hkey, hc, hd]
  · intro s c hc hd
    simp [generate_presentation_content, generate_with_gemini, hkey, hc, hd, pyFalsy]
  · intro s c fs hc hd hfs hlook
    obtain ⟨a, fs', rfl⟩ := List.exists_cons_of_ne_nil hfs
    have hres : generate_presentation_content decode api_key topic doc (BackendResult.text s) now
        = { slides := [], topic := topic, generated_at := now } := by
      simp [generate_presentation_content, generate_with_gemini, hkey, hc, hd, pyFalsy,
        dictGet, hlook, iterSlides, List.mapM, List.mapM.loop]
    refine ⟨by rw [hres], ?_⟩
    rw [hres]
    intro h
    have h4 := congrArg (fun q => q.slides.length) h
    simp [_generate_fallback_content] at h4
  · rw [fallback_slides_len]
    omega

/-- Witness for C1: a raising call and a brace-free response both produce
the fallback. -/
theorem generation_failure_fallback_paths_witness :
    (generate_presentation_content decode0 "k" "T" "" BackendResult.raises now0
        = _generate_fallback_content "T" now0)
    ∧ (generate_presentation_content decode0 "k" "T" "" (BackendResult.text "no json here") now0
        = _generate_fallback_content "T" now0) :=
  ⟨(generation_failure_fallback_paths decode0 "k" "T" "" now0 (by decide)).1
  , (generation_failure_fallback_paths decode0 "k" "T" "" now0 (by decide)).2.1
      "no json here" (by decide)⟩

/-- Counterexample to C1 as stated: the response decodes to the non-empty
object mapping only `"foo"`, which is missing a `slides` sequence, yet the
operation returns a zero-slide presentation instead of the fallback. -/
theorem generation_missing_slides_counterexample :
    ((generate_presentation_content decode0 "k" "T" ""
        (BackendResult.text "\x7b\"foo\": 1\x7d") now0).slides.length = 0)
    ∧ (generate_presentation_content decode0 "k" "T" ""
        (BackendResult.text "\x7b\"foo\": 1\x7d") now0
        ≠ _generate_fallback_content "T" now0) := by
  decide

/-- Claim C8: an uploaded file whose declared MIME type is none of the
four supported ones yields the empty string together with the
unsupported-format signal, without raising, and the empty text makes the
prompt builder behave exactly as in the no-document path. -/
theorem unsupported_type_returns_empty
    (ePdf eDocx eTxt eCsv : UploadedFile → String) (f : UploadedFile) (topic : String)
    (h1 : f.type ≠ "application/pdf")
    (h2 : f.type ≠ "application/vnd.openxmlformats-officedocument.wordprocessingml.document")
    (h3 : f.type ≠ "text/plain")
    (h4 : f.type ≠ "text/csv") :
    process_uploaded_file ePdf eDocx eTxt eCsv (some f)
        = ("", some ("Unsupported file type: " ++ f.type))
    ∧ create_presentation_prompt topic (process_uploaded_file ePdf eDocx eTxt eCsv (some f)).1
        = create_presentation_prompt topic "" := by
  have h : process_uploaded_file ePdf eDocx eTxt eCsv (some f)
      = ("", some ("Unsupported file type: " ++ f.type)) := by
    simp [process_uploaded_file, h1, h2, h3, h4]
  exact ⟨h, by rw [h]⟩

/-- Witness for C8 at the unsupported MIME type `"image/png"`. -/
theorem unsupported_type_returns_empty_witness :
    process_uploaded_file extract0 extract0 extract0 extract0 (some filePng)
        = ("", some ("Unsupported file type: " ++ filePng.type))
    ∧ create_presentation_prompt "T"
        (process_uploaded_file extract0 extract0 extract0 extract0 (some filePng)).1
        = create_presentation_prompt "T" "" :=
  unsupported_type_returns_empty extract0 extract0 extract0 extract0 filePng "T"
    (by decide) (by decide) (by decide) (by decide)

/-! ### Helper lemmas for the renderer -/

@[simp] theorem Rout.app_story (a b : Rout) : (a ++ b).story = a.story ++ b.story := rfl

@[simp] theorem Rout.app_created (a b : Rout) : (a ++ b).created = a.created ++ b.created := rfl

@[simp] theorem Rout.app_deleted (a b : Rout) : (a ++ b).deleted = a.deleted ++ b.deleted := rfl

@[simp] theorem flows_story (l : List Flowable) : (flows l).story = l := rfl

@[simp] theorem flows_created (l : List Flowable) : (flows l).created = [] := rfl

@[simp] theorem flows_deleted (l : List Flowable) : (flows l).deleted = [] := rfl

@[simp] theorem isPageBreak_spacer (a b : Nat) : isPageBreak (Flowable.spacer a b) = false := rfl

@[simp] theorem isPageBreak_paragraph (t st : String) : isPageBreak (Flowable.paragraph t st) = false := rfl

@[simp] theorem isPageBreak_image (p : String) (w h : Nat) : isPageBreak (Flowable.image p w h) = false := rfl

@[simp] theorem isPageBreak_pageBreak : isPageBreak Flowable.pageBreak = true := rfl

@[simp] theorem isImageFlow_spacer (a b : Nat) : isImageFlow (Flowable.spacer a b) = false := rfl

@[simp] theorem isImageFlow_paragraph (t st : String) : isImageFlow (Flowable.paragraph t st) = false := rfl

@[simp] theorem isImageFlow_image (p : String) (w h : Nat) : isImageFlow (Flowable.image p w h) = true := rfl

@[simp] theorem isImageFlow_pageBreak : isImageFlow Flowable.pageBreak = false := rfl

@[simp] theorem countPB_nil : countPB [] = 0 := rfl

@[simp] theorem countPB_append (a b : List Flowable) :
    countPB (a ++ b) = countPB a + countPB b := List.countP_append _ _ _

@[simp] theorem countPB_cons (x : Flowable) (l : List Flowable) :
    countPB (x :: l) = countPB l + if isPageBreak x then 1 else 0 := List.countP_cons _ _ _

@[simp] theorem countImages_nil : countImages [] = 0 := rfl

@[simp] theorem countImages_append (a b : List Flowable) :
    countImages (a ++ b) = countImages a + countImages b := List.countP_append _ _ _

@[simp] theorem countImages_cons (x : Flowable) (l : List Flowable) :
    countImages (x :: l) = countImages l + if isImageFlow x then 1 else 0 := List.countP_cons _ _ _

@[simp] theorem countPB_map_paragraph {α : Type} (g : α → String) (st : String) (l : List α) :
    countPB (l.map fun z => Flowable.paragraph (g z) st) = 0 := by
  induction l with
  | nil => rfl
  | cons a l ih => simp [ih]

@[simp] theorem countImages_map_paragraph {α : Type} (g : α → String) (st : String) (l : List α) :
    countImages (l.map fun z => Flowable.paragraph (g z) st) = 0 := by
  induction l with
  | nil => rfl
  | cons a l ih => simp [ih]

@[simp] theorem paragraphTexts_nil : paragraphTexts [] = [] := rfl

@[simp] theorem paragraphTexts_append (a b : List Flowable) :
    paragraphTexts (a ++ b) = paragraphTexts a ++ paragraphTexts b := List.filterMap_append _ _ _

@[simp] theorem paragraphTexts_cons_spacer (a b : Nat) (l : List Flowable) :
    paragraphTexts (Flowable.spacer a b :: l) = paragraphTexts l := rfl

@[simp] theorem paragraphTexts_cons_pageBreak (l : List Flowable) :
    paragraphTexts (Flowable.pageBreak :: l) = paragraphTexts l := rfl

@[simp] theorem paragraphTexts_cons_image (p : String) (w h : Nat) (l : List Flowable) :
    paragraphTexts (Flowable.image p w h :: l) = paragraphTexts l := rfl

@[simp] theorem paragraphTexts_cons_paragraph (t st : String) (l : List Flowable) :
    paragraphTexts (Flowable.paragraph t st :: l) = t :: paragraphTexts l := rfl

@[simp] theorem paragraphTexts_map {α : Type} (g : α → String) (st : String) (l : List α) :
    paragraphTexts (l.map fun z => Flowable.paragraph (g z) st) = l.map g := by
  induction l with
  | nil => rfl
  | cons a l ih => simp [ih]

@[simp] theorem title_image_block_story_no_pb (fetch : String → Option String)
    (embedOk : String → Bool) (urls : List String) :
    countPB (title_image_block fetch embedOk urls).story = 0 := by
  unfold title_image_block download_image
  cases urls with
  | nil => rfl
  | cons u rest =>
    cases h : fetch u with
    | none => simp [h]
    | some path => by_cases hp : embedOk path <;> simp [h, hp]

@[simp] theorem title_image_block_texts (fetch : String → Option String)
    (embedOk : String → Bool) (urls : List String) :
    paragraphTexts (title_image_block fetch embedOk urls).story = [] := by
  unfold title_image_block download_image
  cases urls with
  | nil => rfl
  | cons u rest =>
    cases h : fetch u with
    | none => simp [h]
    | some path => by_cases hp : embedOk path <;> simp [h, hp]

@[simp] theorem content_image_block_story_no_pb (fetch : String → Option String)
    (embedOk : String → Bool) (u : String) :
    countPB (content_image_block fetch embedOk u).story = 0 := by
  unfold content_image_block download_image
  cases h : fetch u with
  | none => simp [h]
  | some path => by_cases hp : embedOk path <;> simp [h, hp]

@[simp] theorem content_image_block_texts (fetch : String → Option String)
    (embedOk : String → Bool) (u : String) :
    paragraphTexts (content_image_block fetch embedOk u).story = [] := by
  unfold content_image_block download_image
  cases h : fetch u with
  | none => simp [h]
  | some path => by_cases hp : embedOk path <;> simp [h, hp]

@[simp] theorem content_image_blocks_story_no_pb (fetch : String → Option String)
    (embedOk : String → Bool) (urls : List String) :
    countPB (content_image_blocks fetch embedOk urls).story = 0 := by
  unfold content_image_blocks
  generalize urls.take 2 = l
  induction l with
  | nil => rfl
  | cons u rest ih => simp [List.foldr_cons, ih]

@[simp] theorem content_image_blocks_texts (fetch : String → Option String)
    (embedOk : String → Bool) (urls : List String) :
    paragraphTexts (content_image_blocks fetch embedOk urls).story = [] := by
  unfold content_image_blocks
  generalize urls.take 2 = l
  induction l with
  | nil => rfl
  | cons u rest ih => simp [List.foldr_cons, ih]

theorem countPB_title_slide (fetch : String → Option String) (embedOk : String → Bool)
    (s : SlideContent) (p : PresentationData) :
    countPB (_create_enhanced_title_slide fetch embedOk s p).story = 0 := by
  unfold _create_enhanced_title_slide
  by_cases hb : s.bullet_points.isEmpty <;> by_cases ha : s.additional_info.isEmpty <;>
    by_cases hi : s.image_urls.isEmpty <;> simp [hb, ha, hi]

theorem countPB_content_slide (fetch : String → Option String) (embedOk : String → Bool)
    (s : SlideContent) (n : Nat) :
    countPB (_create_enhanced_content_slide fetch embedOk s n).story = 0 := by
  unfold _create_enhanced_content_slide
  by_cases ha : s.additional_info.isEmpty <;> by_cases hi : s.image_urls.isEmpty <;>
    by_cases hr : s.reference_urls.isEmpty <;> simp [ha, hi, hr]

theorem paragraphTexts_title_slide (fetch : String → Option String) (embedOk : String → Bool)
    (s : SlideContent) (p : PresentationData) :
    paragraphTexts (_create_enhanced_title_slide fetch embedOk s p).story
      = [p.topic]
        ++ (if s.bullet_points.isEmpty then []
            else s.bullet_points.map (fun point => "• " ++ point))
        ++ (if s.additional_info.isEmpty then [] else [s.additional_info])
        ++ ["Generated: " ++ p.generated_at.formattedBdY] := by
  unfold _create_enhanced_title_slide
  by_cases hb : s.bullet_points.isEmpty <;> by_cases ha : s.additional_info.isEmpty <;>
    by_cases hi : s.image_urls.isEmpty <;> simp [hb, ha, hi]

theorem paragraphTexts_content_slide (fetch : String → Option String) (embedOk : String → Bool)
    (s : SlideContent) (n : Nat) :
    paragraphTexts (_create_enhanced_content_slide fetch embedOk s n).story
      = [s.title] ++ s.bullet_points.map (fun b => "• " ++ b)
        ++ (if s.additional_info.isEmpty then []
            else ["<b>Additional Information:</b><br/>" ++ s.additional_info])
        ++ (if s.reference_urls.isEmpty then []
            else ["<b>References & Further Reading:</b>"]
              ++ s.reference_urls.map (fun u => "• " ++ u)) := by
  unfold _create_enhanced_content_slide
  by_cases ha : s.additional_info.isEmpty <;> by_cases hi : s.image_urls.isEmpty <;>
    by_cases hr : s.reference_urls.isEmpty <;> simp [ha, hi, hr]

theorem joinPB_countPB (blocks : List Rout) (h : ∀ b ∈ blocks, countPB b.story = 0) :
    countPB (joinPB blocks).story = blocks.length - 1 := by
  induction blocks with
  | nil => rfl
  | cons b bs ih =>
    cases bs with
    | nil => simpa [joinPB] using h b (by simp)
    | cons b2 bs2 =>
      have hb := h b (by simp)
      have hrest : ∀ x ∈ b2 :: bs2, countPB x.story = 0 := fun x hx => h x (by simp [hx])
      have hr := ih hrest
      simp only [joinPB, Rout.app_story, countPB_append, hb, hr]
      simp [countPB]
      omega

theorem joinPB_texts_mem (blocks : List Rout) (r : Rout) (t : String)
    (hr : r ∈ blocks) (ht : t ∈ paragraphTexts r.story) :
    t ∈ paragraphTexts (joinPB blocks).story := by
  induction blocks with
  | nil => cases hr
  | cons b bs ih =>
    cases bs with
    | nil =>
      rcases List.mem_singleton.mp hr with rfl
      simpa [joinPB] using ht
    | cons b2 bs2 =>
      rcases List.mem_cons.mp hr with rfl | hr2
      · simp [joinPB]
        left
        exact ht
      · simp [joinPB]
        right
        exact ih hr2

theorem joinPB_paragraphTexts (blocks : List Rout) :
    paragraphTexts (joinPB blocks).story
      = (blocks.map (fun b => paragraphTexts b.story)).flatten := by
  induction blocks with
  | nil => rfl
  | cons b bs ih =>
    cases bs with
    | nil => simp [joinPB]
    | cons b2 bs2 => simp [joinPB, ih]

theorem content_slide_number_irrelevant (fetch : String → Option String)
    (embedOk : String → Bool) (s : SlideContent) (m n : Nat) :
    _create_enhanced_content_slide fetch embedOk s m
      = _create_enhanced_content_slide fetch embedOk s n := rfl

theorem map_enumFrom_content (fetch : String → Option String) (embedOk : String → Bool)
    (p : PresentationData) (l : List SlideContent) (n : Nat) (hn : n ≠ 0) :
    (l.enumFrom n).map (fun x =>
        if x.1 = 0 then _create_enhanced_title_slide fetch embedOk x.2 p
        else _create_enhanced_content_slide fetch embedOk x.2 x.1)
      = l.map (fun s => _create_enhanced_content_slide fetch embedOk s 1) := by
  induction l generalizing n with
  | nil => rfl
  | cons a l ih =>
    simp only [List.enumFrom_cons, List.map_cons]
    rw [if_neg hn]
    rw [content_slide_number_irrelevant fetch embedOk a n 1]
    rw [ih (n + 1) (by omega)]

theorem create_presentation_cons (fetch : String → Option String) (embedOk : String → Bool)
    (p : PresentationData) (s0 : SlideContent) (rest : List SlideContent)
    (h : p.slides = s0 :: rest) :
    create_presentation fetch embedOk p
      = joinPB (_create_enhanced_title_slide fetch embedOk s0 p
          :: rest.map (fun s => _create_enhanced_content_slide fetch embedOk s 1)) := by
  unfold create_presentation
  rw [h]
  have henum : (s0 :: rest).enum = (0, s0) :: rest.enumFrom 1 := rfl
  rw [henum]
  simp only [List.map_cons]
  rw [map_enumFrom_content fetch embedOk p rest 1 (by omega)]
  simp

/-! ### Claim theorems for the renderer -/

/-- Claim C5 (amended): for a presentation with N ≥ 1 slides, the story
contains exactly N-1 page breaks (one between consecutive slides, none
after the last); the topic appears as the title-slide heading and every
content slide's (index ≥ 1) title appears; but the first slide's own
`title` field is not itself rendered — the topic is used instead. -/
theorem renderer_breaks_and_content_titles (fetch : String → Option String)
    (embedOk : String → Bool) (p : PresentationData) (h : p.slides ≠ []) :
    countPB (create_presentation fetch embedOk p).story = p.slides.length - 1
    ∧ p.topic ∈ paragraphTexts (create_presentation fetch embedOk p).story
    ∧ ∀ s ∈ p.slides.tail, s.title ∈ paragraphTexts (create_presentation fetch embedOk p).story := by
  obtain ⟨s0, rest, hsl⟩ := List.exists_cons_of_ne_nil h
  rw [create_presentation_cons fetch embedOk p s0 rest hsl]
  refine ⟨?_, ?_, ?_⟩
  · rw [joinPB_countPB]
    · simp [hsl]
    · intro b hb
      rcases List.mem_cons.mp hb with rfl | hb2
      · exact countPB_title_slide fetch embedOk s0 p
      · obtain ⟨s, _, rfl⟩ := List.mem_map.mp hb2
        exact countPB_content_slide fetch embedOk s 1
  · apply joinPB_texts_mem _ (_create_enhanced_title_slide fetch embedOk s0 p) _ (by simp)
    rw [paragraphTexts_title_slide]
    simp
  · intro s hs
    rw [hsl] at hs
    apply joinPB_texts_mem _ (_create_enhanced_content_slide fetch embedOk s 1) _ ?_ ?_
    · exact List.mem_cons_of_mem _ (List.mem_map_of_mem _ hs)
    · rw [paragraphTexts_content_slide]
      simp

/-- Witness for C5 on a concrete 2-slide presentation. -/
theorem renderer_breaks_and_content_titles_witness :
    countPB (create_presentation fetch0 embedAll presAB).story = presAB.slides.length - 1
    ∧ presAB.topic ∈ paragraphTexts (create_presentation fetch0 embedAll presAB).story
    ∧ ∀ s ∈ presAB.slides.tail,
        s.title ∈ paragraphTexts (create_presentation fetch0 embedAll presAB).story :=
  renderer_breaks_and_content_titles fetch0 embedAll presAB (by decide)

/-- Counterexample to C5 as stated: a one-slide presentation whose first
slide is titled `"X"` under topic `"Y"` renders no paragraph containing
`"X"` at all, so not every slide's title text appears in the output. -/
theorem title_slide_title_not_rendered :
    presX.slides ≠ []
    ∧ presX.slides.map (fun s => s.title) = ["X"]
    ∧ (paragraphTexts (create_presentation fetch0 embedAll presX).story).all
        (fun t => !(t.toList.contains 'X')) = true := by
  decide

theorem title_image_block_none (fetch : String → Option String) (embedOk : String → Bool)
    (u : String) (rest : List String) (hu : fetch u = none) :
    title_image_block fetch embedOk (u :: rest) = flows [] := by
  unfold title_image_block download_image
  simp [hu]

theorem content_image_block_none (fetch : String → Option String) (embedOk : String → Bool)
    (u : String) (hu : fetch u = none) :
    content_image_block fetch embedOk u = flows [] := by
  unfold content_image_block download_image
  simp [hu]

theorem content_blocks_foldr_none (fetch : String → Option String) (embedOk : String → Bool)
    (l : List String) (h : ∀ u ∈ l, fetch u = none) :
    l.foldr (fun u acc => content_image_block fetch embedOk u ++ acc) (flows []) = flows [] := by
  induction l with
  | nil => rfl
  | cons u rest ih =>
    have hrest := ih (fun x hx => h x (by simp [hx]))
    simp only [List.foldr_cons, hrest]
    rw [content_image_block_none fetch embedOk u (h u (by simp))]
    rfl

theorem content_image_blocks_none (fetch : String → Option String) (embedOk : String → Bool)
    (urls : List String) (h : ∀ u ∈ urls, fetch u = none) :
    content_image_blocks fetch embedOk urls = flows [] := by
  unfold content_image_blocks
  exact content_blocks_foldr_none fetch embedOk (urls.take 2)
    (fun u hu => h u (List.take_subset 2 urls hu))

theorem content_image_block_story_embed_false (fetch : String → Option String) (u : String) :
    (content_image_block fetch (fun _ => false) u).story = [] := by
  unfold content_image_block download_image
  cases h : fetch u with
  | none => simp [h]
  | some path => simp [h]

theorem content_image_blocks_story_embed_false (fetch : String → Option String)
    (urls : List String) :
    (content_image_blocks fetch (fun _ => false) urls).story = [] := by
  unfold content_image_blocks
  generalize urls.take 2 = l
  induction l with
  | nil => rfl
  | cons u rest ih =>
    simp only [List.foldr_cons, Rout.app_story, ih,
      content_image_block_story_embed_false, List.append_nil]

theorem countImages_content_image_block_le (fetch : String → Option String)
    (embedOk : String → Bool) (u : String) :
    countImages (content_image_block fetch embedOk u).story ≤ 1 := by
  unfold content_image_block download_image
  cases h : fetch u with
  | none => simp [h]
  | some path => by_cases hp : embedOk path <;> simp [h, hp]

theorem countImages_foldr_le (fetch : String → Option String) (embedOk : String → Bool)
    (l : List String) :
    countImages ((l.foldr (fun u acc => content_image_block fetch embedOk u ++ acc)
        (flows [])).story) ≤ l.length := by
  induction l with
  | nil => simp [countImages]
  | cons u rest ih =>
    have hu := countImages_content_image_block_le fetch embedOk u
    simp only [List.foldr_cons, Rout.app_story, countImages_append, List.length_cons]
    omega

theorem countImages_content_image_blocks_le (fetch : String → Option String)
    (embedOk : String → Bool) (urls : List String) :
    countImages (content_image_blocks fetch embedOk urls).story ≤ 2 := by
  unfold content_image_blocks
  have h1 := countImages_foldr_le fetch embedOk (urls.take 2)
  have h2 : (urls.take 2).length ≤ 2 := by
    rw [List.length_take]
    omega
  omega

/-- Claim C6: image download or embed failures are silently skipped — a
content slide inspects only the first 2 of its image URLs; with every
fetch failing, the slide renders exactly as if it had no image URLs (both
for content and title slides); an embed failure is observationally the
same as a download failure; at most 2 images are ever embedded per content
slide; and the document's paragraph texts and page breaks do not depend on
the fetch or embed oracles at all. -/
theorem image_failures_silently_skipped (fetch : String → Option String)
    (embedOk : String → Bool) (s : SlideContent) (n : Nat) (p : PresentationData) :
    (_create_enhanced_content_slide fetch embedOk { s with image_urls := s.image_urls.take 2 } n
        = _create_enhanced_content_slide fetch embedOk s n)
    ∧ ((∀ u ∈ s.image_urls, fetch u = none) →
        _create_enhanced_content_slide fetch embedOk s n
          = _create_enhanced_content_slide fetch embedOk { s with image_urls := [] } n)
    ∧ ((∀ u ∈ s.image_urls, fetch u = none) →
        _create_enhanced_title_slide fetch embedOk s p
          = _create_enhanced_title_slide fetch embedOk { s with image_urls := [] } p)
    ∧ ((_create_enhanced_content_slide fetch (fun _ => false) s n).story
        = (_create_enhanced_content_slide (fun _ => none) embedOk s n).story)
    ∧ countImages (_create_enhanced_content_slide fetch embedOk s n).story ≤ 2
    ∧ (∀ q : PresentationData, ∀ g : String → Option String, ∀ e2 : String → Bool,
        paragraphTexts (create_presentation fetch embedOk q).story
          = paragraphTexts (create_presentation g e2 q).story
        ∧ countPB (create_presentation fetch embedOk q).story
          = countPB (create_presentation g e2 q).story) := by
  obtain ⟨t, bp, ai, iu, ru⟩ := s
  refine ⟨?_, ?_, ?_, ?_, ?_, ?_⟩
  · cases iu with
    | nil => rfl
    | cons u1 r1 =>
      cases r1 with
      | nil => rfl
      | cons u2 r2 => rfl
  · intro hf
    cases iu with
    | nil => rfl
    | cons u1 r1 =>
      have hb := content_image_blocks_none fetch embedOk (u1 :: r1) hf
      simp [_create_enhanced_content_slide, hb]
  · intro hf
    cases iu with
    | nil => rfl
    | cons u1 r1 =>
      have hb := title_image_block_none fetch embedOk u1 r1 (hf u1 (by simp))
      simp [_create_enhanced_title_slide, hb]
  · unfold _create_enhanced_content_slide
    by_cases hi : (SlideContent.mk t bp ai iu ru).image_urls.isEmpty <;>
      simp [hi, content_image_blocks_story_embed_false,
        content_image_blocks_none (fun _ => none) embedOk iu (fun u _ => rfl)]
  · unfold _create_enhanced_content_slide
    have h0 := countImages_content_image_blocks_le fetch embedOk iu
    by_cases ha : ai.isEmpty <;> by_cases hi : iu.isEmpty <;> by_cases hr : ru.isEmpty <;>
      simp [ha, hi, hr] <;> omega
  · intro q g e2
    cases hq : q.slides with
    | nil =>
      have h1 : create_presentation fetch embedOk q = flows [] := by
        unfold create_presentation
        rw [hq]
        rfl
      have h2 : create_presentation g e2 q = flows [] := by
        unfold create_presentation
        rw [hq]
        rfl
      rw [h1, h2]
      exact ⟨rfl, rfl⟩
    | cons s0 rest =>
      rw [create_presentation_cons fetch embedOk q s0 rest hq,
          create_presentation_cons g e2 q s0 rest hq]
      constructor
      · rw [joinPB_paragraphTexts, joinPB_paragraphTexts]
        simp [List.map_map, Function.comp_def, paragraphTexts_title_slide,
          paragraphTexts_content_slide]
      · have hA : ∀ b ∈ (_create_enhanced_title_slide fetch embedOk s0 q
            :: rest.map (fun s => _create_enhanced_content_slide fetch embedOk s 1)),
            countPB b.story = 0 := by
          intro b hb
          rcases List.mem_cons.mp hb with rfl | hb2
          · exact countPB_title_slide fetch embedOk s0 q
          · obtain ⟨x, _, rfl⟩ := List.mem_map.mp hb2
            exact countPB_content_slide fetch embedOk x 1
        have hB : ∀ b ∈ (_create_enhanced_title_slide g e2 s0 q
            :: rest.map (fun s => _create_enhanced_content_slide g e2 s 1)),
            countPB b.story = 0 := by
          intro b hb
          rcases List.mem_cons.mp hb with rfl | hb2
          · exact countPB_title_slide g e2 s0 q
          · obtain ⟨x, _, rfl⟩ := List.mem_map.mp hb2
            exact countPB_content_slide g e2 x 1
        rw [joinPB_countPB _ hA, joinPB_countPB _ hB]
        simp

/-- Witness for C6: with every fetch failing, the 3-URL slide `slideC`
renders as if it had no images, and the rendered document of `presAB` has
the same texts under a failing fetch as under any other oracle pair. -/
theorem image_failures_silently_skipped_witness :
    (_create_enhanced_content_slide fetch0 embedAll slideC 1
        = _create_enhanced_content_slide fetch0 embedAll { slideC with image_urls := [] } 1)
    ∧ paragraphTexts (create_presentation fetch0 embedAll presAB).story
        = paragraphTexts (create_presentation fetch1 embedNone presAB).story := by
  have h := image_failures_silently_skipped fetch0 embedAll slideC 1 presAB
  exact ⟨h.2.1 (fun u _ => rfl), (h.2.2.2.2.2 presAB fetch1 embedNone).1⟩

theorem cleanup_app (e : String → Bool) (a b : Rout)
    (ha : a.deleted = a.created.filter e) (hb : b.deleted = b.created.filter e) :
    (a ++ b).deleted = (a ++ b).created.filter e := by
  simp [ha, hb, List.filter_append]

theorem cleanup_title_image (fetch : String → Option String) (embedOk : String → Bool)
    (urls : List String) :
    (title_image_block fetch embedOk urls).deleted
      = (title_image_block fetch embedOk urls).created.filter embedOk := by
  unfold title_image_block download_image
  cases urls with
  | nil => rfl
  | cons u rest =>
    cases h : fetch u with
    | none => simp [h]
    | some path => by_cases hp : embedOk path <;> simp [h, hp]

theorem cleanup_content_image (fetch : String → Option String) (embedOk : String → Bool)
    (u : String) :
    (content_image_block fetch embedOk u).deleted
      = (content_image_block fetch embedOk u).created.filter embedOk := by
  unfold content_image_block download_image
  cases h : fetch u with
  | none => simp [h]
  | some path => by_cases hp : embedOk path <;> simp [h, hp]

theorem cleanup_content_blocks (fetch : String → Option String) (embedOk : String → Bool)
    (urls : List String) :
    (content_image_blocks fetch embedOk urls).deleted
      = (content_image_blocks fetch embedOk urls).created.filter embedOk := by
  unfold content_image_blocks
  generalize urls.take 2 = l
  induction l with
  | nil => rfl
  | cons u rest ih =>
    simp only [List.foldr_cons]
    exact cleanup_app embedOk _ _ (cleanup_content_image fetch embedOk u) ih

theorem cleanup_title_slide (fetch : String → Option String) (embedOk : String → Bool)
    (s : SlideContent) (p : PresentationData) :
    (_create_enhanced_title_slide fetch embedOk s p).deleted
      = (_create_enhanced_title_slide fetch embedOk s p).created.filter embedOk := by
  unfold _create_enhanced_title_slide
  by_cases hi : s.image_urls.isEmpty <;>
    simp [hi, List.filter_append, cleanup_title_image fetch embedOk s.image_urls]

theorem cleanup_content_slide (fetch : String → Option String) (embedOk : String → Bool)
    (s : SlideContent) (n : Nat) :
    (_create_enhanced_content_slide fetch embedOk s n).deleted
      = (_create_enhanced_content_slide fetch embedOk s n).created.filter embedOk := by
  unfold _create_enhanced_content_slide
  by_cases hi : s.image_urls.isEmpty <;>
    simp [hi, List.filter_append, cleanup_content_blocks fetch embedOk s.image_urls]

theorem cleanup_joinPB (e : String → Bool) (blocks : List Rout)
    (h : ∀ b ∈ blocks, b.deleted = b.created.filter e) :
    (joinPB blocks).deleted = (joinPB blocks).created.filter e := by
  induction blocks with
  | nil => rfl
  | cons b bs ih =>
    cases bs with
    | nil => simpa [joinPB] using h b (by simp)
    | cons b2 bs2 =>
      have hb := h b (by simp)
      have hrest := ih (fun x hx => h x (by simp [hx]))
      simp only [joinPB] at hrest ⊢
      exact cleanup_app e _ _ (cleanup_app e _ _ hb rfl) hrest

/-- Claim C7: across a whole rendering run, the temporary files deleted
are exactly the downloaded files whose embedding succeeded; per image
step, a successful embed deletes the file within the same step, while an
embed failure after a successful download leaves the file undeleted. -/
theorem temp_files_cleanup_success_only (fetch : String → Option String)
    (embedOk : String → Bool) (p : PresentationData) (url path : String) :
    ((create_presentation fetch embedOk p).deleted
        = (create_presentation fetch embedOk p).created.filter embedOk)
    ∧ (fetch url = some path → embedOk path = true →
        content_image_block fetch embedOk url
          = { story := [Flowable.image path 25 18, Flowable.spacer 1 1]
            , created := [path], deleted := [path] })
    ∧ (fetch url = some path → embedOk path = false →
        content_image_block fetch embedOk url
          = { story := [], created := [path], deleted := [] }) := by
  refine ⟨?_, ?_, ?_⟩
  · unfold create_presentation
    apply cleanup_joinPB
    intro b hb
    obtain ⟨x, _, rfl⟩ := List.mem_map.mp hb
    by_cases hx : x.1 = 0
    · simp only [hx, if_pos]
      exact cleanup_title_slide fetch embedOk x.2 p
    · simp only [hx, if_neg, ite_false]
      exact cleanup_content_slide fetch embedOk x.2 x.1
  · intro hf hp
    unfold content_image_block download_image
    simp [hf, hp]
  · intro hf hp
    unfold content_image_block download_image
    simp [hf, hp]

/-- Witness for C7: with `fetch1` succeeding on one URL, an embed failure
leaves the downloaded temp file undeleted, and an embed success deletes
it; the document-level ledger also matches. -/
theorem temp_files_cleanup_success_only_witness :
    ((create_presentation fetch1 embedNone presAB).deleted
        = (create_presentation fetch1 embedNone presAB).created.filter embedNone)
    ∧ content_image_block fetch1 embedNone "http://img.example/a.jpg"
        = { story := [], created := ["/tmp/t1.jpg"], deleted := [] }
    ∧ content_image_block fetch1 embedAll "http://img.example/a.jpg"
        = { story := [Flowable.image "/tmp/t1.jpg" 25 18, Flowable.spacer 1 1]
          , created := ["/tmp/t1.jpg"], deleted := ["/tmp/t1.jpg"] } := by
  have h1 := temp_files_cleanup_success_only fetch1 embedNone presAB
    "http://img.example/a.jpg" "/tmp/t1.jpg"
  have h2 := temp_files_cleanup_success_only fetch1 embedAll presAB
    "http://img.example/a.jpg" "/tmp/t1.jpg"
  exact ⟨h1.1, h1.2.2 (by decide) (by decide), h2.2.1 (by decide) (by decide)⟩
